import Mathlib

/-!
Verification of the type-erased message tuple and the OpenSSL transport
session of the actor framework, against a shallow embedding of
`libcaf_core/caf/type_erased_tuple.hpp` and `libcaf_openssl/src/session.cpp`.

Machine integers are modelled as `Nat` (with explicit `% 2 ^ 32` where a
32-bit digest is produced).  The C++ `const std::type_info*` runtime-type
token is modelled as a `Nat` identifying the runtime type; pointer equality
of `std::type_info` objects becomes equality of these identifiers.
-/

namespace caf

/-- Runtime type identity of one element: the small integer type number
(`uint16_t`) paired with the runtime-type token
(models `std::pair<uint16_t, const std::type_info*>`). -/
structure rtti_pair where
  first : Nat
  second : Nat
deriving DecidableEq, Repr

/-- Universe of concrete element payloads used by the embedding. -/
inductive Val where
  | vint : Int → Val
  | vstr : String → Val
  | vbool : Bool → Val
deriving DecidableEq, Repr

/-- Shallow embedding of the abstract `type_erased_tuple` contract: arity,
per-position runtime type identity, per-position read access, and the
advisory `shared` flag.  Concrete implementations (the view, owning
tuples) instantiate these fields. -/
structure type_erased_tuple where
  size : Nat
  type : Nat → rtti_pair
  get : Nat → Val
  sharedFlag : Bool

/-- Modelled from the spec: the body of `type_erased_tuple::matches(pos, n, p)`
lives in `type_erased_tuple.cpp`, which is not part of the sources; spec
section 4.1 says it is true iff both the integer type number and the
runtime-type token agree with the element stored at `pos`. -/
def type_erased_tuple.matches (t : type_erased_tuple) (pos : Nat) (n : Nat)
    (p : Nat) : Bool :=
  (t.type pos).first == n && (t.type pos).second == p

/-- `type_erased_tuple::matches(pos, rtti)` convenience overload
(source lines 117-119): forwards to the two-argument form. -/
def type_erased_tuple.matchesPair (t : type_erased_tuple) (pos : Nat)
    (rtti : rtti_pair) : Bool :=
  t.matches pos rtti.first rtti.second

/-- Modelled from the spec: `detail::match_element` (from
`caf/detail/try_match.hpp`, not part of the sources) compares the runtime
type of the element at `pos` against the static type the meta element `x`
stands for, via the `matches` double-check. -/
def match_element (x : rtti_pair) (t : type_erased_tuple) (pos : Nat) : Bool :=
  t.matches pos x.first x.second

/-- The comparison loop of `type_erased_tuple::match_elements`
(source lines 147-149): walk the meta-element array in ascending position
order, returning `false` at the first mismatch. -/
def match_elements_loop (t : type_erased_tuple) :
    List rtti_pair → Nat → Bool
  | [], _ => true
  | x :: xs, i =>
    if match_element x t i then match_elements_loop t xs (i + 1) else false

/-- `type_erased_tuple::match_elements<Ts...>()` (source lines 142-151):
reject immediately when the static arity differs from `size()`, otherwise
run the ascending comparison loop.  The static type list `Ts...` is
embedded as the list of rtti pairs its meta elements carry. -/
def type_erased_tuple.match_elements (t : type_erased_tuple)
    (ts : List rtti_pair) : Bool :=
  if ts.length ≠ t.size then false
  else match_elements_loop t ts 0

/-- The argument list `apply` hands to the callable: the pseudo tuple is
filled with `get(i)` for `i = 0 .. size()-1` (source lines 169-170 and
180-181) and unpacked positionally by `detail::apply_args`. -/
def type_erased_tuple.args (t : type_erased_tuple) : List Val :=
  (List.range t.size).map t.get

/-- The value-returning overload of `type_erased_tuple::apply`
(source lines 163-172): return `none` unless `match_elements` succeeds,
otherwise invoke the callable once on the elements in positional order and
wrap its result in a present optional.  The callable is threaded through
an explicit state `σ` so that its side effects (for instance an
invocation counter) are observable. -/
def type_erased_tuple.applyVal {σ R : Type} (t : type_erased_tuple)
    (argTypes : List rtti_pair) (f : σ → List Val → σ × R) (s : σ) :
    σ × Option R :=
  if t.match_elements argTypes then
    let p := f s t.args
    (p.1, some p.2)
  else (s, none)

/-- The void overload of `type_erased_tuple::apply` (source lines 174-184):
return `none` unless `match_elements` succeeds, otherwise invoke the
callable once on the elements in positional order and return the
present-but-empty `unit` result. -/
def type_erased_tuple.applyVoid {σ : Type} (t : type_erased_tuple)
    (argTypes : List rtti_pair) (f : σ → List Val → σ) (s : σ) :
    σ × Option Unit :=
  if t.match_elements argTypes then (f s t.args, some ())
  else (s, none)

/-! ## The tuple view (`type_erased_tuple_view`, source lines 233-314)

The view holds, per element, a wrapper whose payload is a reference to an
external caller-owned variable.  External variables live in a `Store`
mapping addresses to values; a view element is its runtime type identity
plus the address of the variable it references
(models `type_erased_value_impl<std::reference_wrapper<T>>`). -/

/-- Address of an external caller-owned variable. -/
abbrev Addr := Nat

/-- The external storage holding the caller-owned variables a view
references. -/
abbrev Store := Addr → Val

/-- Pointwise store update: mutating one external variable. -/
def Store.write (st : Store) (a : Addr) (x : Val) : Store :=
  fun b => if b = a then x else st b

/-- An owning type-erased value, as produced by `copy`: it carries the
payload itself, not a reference into any store
(models `type_erased_value_ptr`). -/
structure type_erased_value where
  rtti : rtti_pair
  payload : Val
deriving DecidableEq, Repr

/-- Shallow embedding of `type_erased_tuple_view<Ts...>`: one entry per
element, holding the runtime type identity of `Ts[i]` and the address of
the external variable the reference wrapper points at.  The `ptrs_`
lookup table built by `init()` is position-indexed access into this
list. -/
structure type_erased_tuple_view where
  refs : List (rtti_pair × Addr)
deriving DecidableEq, Repr

namespace type_erased_tuple_view

/-- Fallback entry for out-of-range positions (out-of-range access is
undefined behavior in the source; all theorems below hypothesize
`pos < size`). -/
def dummy : rtti_pair × Addr := (⟨0, 0⟩, 0)

/-- `type_erased_tuple_view::size()` (source lines 264-266). -/
def size (v : type_erased_tuple_view) : Nat :=
  v.refs.length

/-- `type_erased_tuple_view::type(pos)` (source lines 272-274): forwards
to the wrapper at `pos`. -/
def type (v : type_erased_tuple_view) (pos : Nat) : rtti_pair :=
  (v.refs.getD pos dummy).1

/-- `type_erased_tuple_view::get(pos)` (source lines 276-278): reads the
external variable the wrapper at `pos` references. -/
def get (v : type_erased_tuple_view) (st : Store) (pos : Nat) : Val :=
  st (v.refs.getD pos dummy).2

/-- Mutation through `type_erased_tuple_view::get_mutable(pos)`
(source lines 254-256): writes through the reference held by the wrapper
at `pos`, i.e. updates the external variable in place. -/
def set (v : type_erased_tuple_view) (st : Store) (pos : Nat) (x : Val) :
    Store :=
  st.write (v.refs.getD pos dummy).2 x

/-- `type_erased_tuple_view::copy(pos)` (source lines 284-286) forwarding
to the wrapper.  Modelled from the spec for the wrapper part: the body of
`type_erased_value_impl::copy` is not part of the sources; spec section
4.1 says copy always produces a new, independently-owned value.  The
produced value carries the payload read at the moment of copying. -/
def copy (v : type_erased_tuple_view) (st : Store) (pos : Nat) :
    type_erased_value :=
  ⟨v.type pos, v.get st pos⟩

/-- The copy constructor of `type_erased_tuple_view` (source lines
246-250): `xs_(other.xs_)` copies the tuple of reference wrappers, so the
new view references the same external variables; `init()` then rebuilds
the position table identically over them. -/
def copyCtor (v : type_erased_tuple_view) : type_erased_tuple_view :=
  ⟨v.refs⟩

/-- Modelled from the spec: `make_type_token<Ts...>` (from
`caf/type_nr.hpp`, not part of the sources) computes a 32-bit hash-like
digest of the ordered sequence of element type numbers. -/
def make_type_token (ts : List rtti_pair) : Nat :=
  ts.foldl (fun acc r => (acc * 64 + r.first) % 2 ^ 32) (2 ^ 32 - 1)

/-- `type_erased_tuple_view::type_token()` (source lines 268-270): returns
`make_type_token<Ts...>()`, recomputed from the static type list on every
call. -/
def type_token (v : type_erased_tuple_view) : Nat :=
  make_type_token (v.refs.map Prod.fst)

/-- The ordered static element-type sequence of a view. -/
def typeList (v : type_erased_tuple_view) : List rtti_pair :=
  v.refs.map Prod.fst

/-- A serializer sink is the stream of element values written so far. -/
def view_save_pos (v : type_erased_tuple_view) (st : Store) (pos : Nat)
    (sink : List Val) : List Val :=
  sink ++ [v.get st pos]

/-- Modelled from the spec: the aggregate `type_erased_tuple::save(sink)`
lives in `type_erased_tuple.cpp`, which is not part of the sources; spec
section 4.1 says it is the pure composition of the per-position
`save(pos, sink)` calls for `pos = 0 .. size()-1` in ascending order,
with no additional framing. -/
def view_save (v : type_erased_tuple_view) (st : Store) (sink : List Val) :
    List Val :=
  (List.range v.size).foldl (fun sk i => view_save_pos v st i sk) sink

/-- Per-position load, `type_erased_tuple_view::load(pos, source)`
(source lines 258-260) forwarding to the wrapper.  Modelled from the spec
for the wrapper part: reading one element value from the source stream
and storing it into the referenced variable; a malformed (exhausted)
stream is a `SerializationFailure`, modelled as `none`. -/
def view_load_pos (v : type_erased_tuple_view) (pos : Nat)
    (state : Store × List Val) : Option (Store × List Val) :=
  match state.2 with
  | [] => none
  | x :: rest => some (v.set state.1 pos x, rest)

/-- The ascending composition loop of the aggregate load over positions
`i, i+1, ...` up to `size()`. -/
def view_load_from (v : type_erased_tuple_view) :
    Nat → Nat → Store × List Val → Option (Store × List Val)
  | _, 0, state => some state
  | i, n + 1, state => do
    let state2 ← v.view_load_pos i state
    view_load_from v (i + 1) n state2

/-- Modelled from the spec: the aggregate `type_erased_tuple::load(source)`
lives in `type_erased_tuple.cpp`, which is not part of the sources; spec
section 4.1 says it is the pure composition of the per-position
`load(pos, source)` calls in ascending position order, with no additional
framing, and any per-element failure aborts the whole aggregate load. -/
def view_load (v : type_erased_tuple_view) (state : Store × List Val) :
    Option (Store × List Val) :=
  view_load_from v 0 v.size state

/-- The store produced by running the per-position loads for positions
`i, i+1, ...` in ascending order, storing the successive source values
into the successive elements. -/
def loadStore (v : type_erased_tuple_view) : Nat → Store → List Val → Store
  | _, st, [] => st
  | i, st, x :: xs => loadStore v (i + 1) (v.set st i x) xs

/-- A view satisfies the abstract tuple contract (the base-class interface
its overrides implement): `size`, `type` and `get` forward to the view,
and `shared()` keeps the default `false` of the base class. -/
def asTuple (v : type_erased_tuple_view) (st : Store) : type_erased_tuple :=
  ⟨v.size, v.type, fun pos => v.get st pos, false⟩

end type_erased_tuple_view

/-! ## Concrete instances used by the witness theorems -/

/-- A concrete view over two external variables: an int-typed element
referencing address 0 and a string-typed element referencing address 1. -/
def sampleView : type_erased_tuple_view :=
  ⟨[(⟨1, 10⟩, 0), (⟨13, 20⟩, 1)]⟩

/-- A concrete store: address 0 holds `int 42`, address 1 holds
`string "hi"`. -/
def sampleStore : Store :=
  fun a => if a = 0 then Val.vint 42
    else if a = 1 then Val.vstr "hi" else Val.vbool false

/-- The sample view read through the abstract tuple contract. -/
def sampleTuple : type_erased_tuple :=
  sampleView.asTuple sampleStore

/-- The static parameter-type list matching the sample tuple shape. -/
def samplePattern : List rtti_pair :=
  [⟨1, 10⟩, ⟨13, 20⟩]

/-- A static parameter-type list of the right arity but swapped element
types, hence not matching the sample tuple. -/
def swappedPattern : List rtti_pair :=
  [⟨13, 20⟩, ⟨1, 10⟩]

end caf

namespace openssl

/-- The condition `SSL_get_error` reports for a non-positive return of
`SSL_read` / `SSL_write` (external collaborator; only the conditions the
session distinguishes are modelled, everything else is `other_error`). -/
inductive ssl_errc where
  | want_read
  | want_write
  | zero_return
  | syscall
  | other_error
deriving DecidableEq, Repr

/-- The outcome of one underlying `SSL_read` / `SSL_write` call: the
integer return value, and the error condition `SSL_get_error` would
report for it when it is not positive. -/
structure ssl_outcome where
  ret : Int
  errc : ssl_errc
deriving DecidableEq, Repr

/-- Observable outcome of `session::read_some` / `session::write_some`:
the value assigned to the out-parameter `result` (`none` when the
function returns without assigning it) and the boolean return. -/
structure io_result where
  result : Option Nat
  ok : Bool
deriving DecidableEq, Repr

/-- `session::handle_ssl_result` (source lines 170-184): want-read and
want-write mean "try again next time" and yield `true`; zero-return
(regular remote shutdown) and syscall (socket closed) yield `false`; any
other error also yields `false`. -/
def handle_ssl_result (err : ssl_errc) : Bool :=
  match err with
  | .want_read => true
  | .want_write => true
  | .zero_return => false
  | .syscall => false
  | .other_error => false

/-- `session::read_some` (source lines 59-71): for `len == 0` the body is
`return 0`, i.e. `false`, with `result` left unassigned and no
`SSL_read` attempted; otherwise a positive `SSL_read` return is stored in
`result` with `true`, and a non-positive return stores `0` and defers to
`handle_ssl_result`. -/
def read_some (ssl : ssl_outcome) (len : Nat) : io_result :=
  if len = 0 then ⟨none, false⟩
  else if ssl.ret > 0 then ⟨some ssl.ret.toNat, true⟩
  else ⟨some 0, handle_ssl_result ssl.errc⟩

/-- `session::write_some` (source lines 73-85): for `len == 0` the body is
`return true` with `result` left unassigned and no `SSL_write`
attempted; otherwise a positive `SSL_write` return is stored in `result`
with `true`, and a non-positive return stores `0` and defers to
`handle_ssl_result`. -/
def write_some (ssl : ssl_outcome) (len : Nat) : io_result :=
  if len = 0 then ⟨none, true⟩
  else if ssl.ret > 0 then ⟨some ssl.ret.toNat, true⟩
  else ⟨some 0, handle_ssl_result ssl.errc⟩

end openssl

/-! ## Theorems -/

namespace caf

/-- A second view with the same ordered element types as `sampleView` but
referencing different external variables. -/
def otherView : type_erased_tuple_view :=
  ⟨[(⟨1, 10⟩, 7), (⟨13, 20⟩, 9)]⟩

/-- C4: for every tuple `T`, position `pos`, type number `n` and
runtime-type token `p`, `T.matches(pos, n, p)` is true iff both the type
number and the token agree with the element stored at `pos`; in
particular `T.matches(p, T.type(p).number, T.type(p).token)` is true for
every valid position, also through the `rtti_pair` convenience
overload. -/
theorem matches_iff_number_and_token_agree (t : type_erased_tuple)
    (pos n p : Nat) (hpos : pos < t.size) :
    (t.matches pos n p = true ↔
      (t.type pos).first = n ∧ (t.type pos).second = p) ∧
    t.matches pos (t.type pos).first (t.type pos).second = true ∧
    t.matchesPair pos (t.type pos) = true := by
  refine ⟨?_, ?_, ?_⟩ <;>
    simp [type_erased_tuple.matches, type_erased_tuple.matchesPair]

/-- Witness for C4 at the sample tuple and position 0. -/
theorem matches_iff_number_and_token_agree_witness :
    0 < sampleTuple.size ∧
    sampleTuple.matches 0 (sampleTuple.type 0).first
      (sampleTuple.type 0).second = true :=
  ⟨by decide,
   (matches_iff_number_and_token_agree sampleTuple 0 1 10 (by decide)).2.1⟩

/-- C5: the type token of a view is recomputed identically on every call
because it is a pure function of the ordered static element-type
sequence only; two views with identical element types in the same order
(here: regardless of which external variables they reference) produce
identical tokens. -/
theorem type_token_function_of_type_list (v w : type_erased_tuple_view)
    (h : v.typeList = w.typeList) :
    v.type_token = w.type_token ∧
    v.type_token = type_erased_tuple_view.make_type_token v.typeList := by
  refine ⟨?_, rfl⟩
  show type_erased_tuple_view.make_type_token v.typeList
      = type_erased_tuple_view.make_type_token w.typeList
  rw [h]

/-- Witness for C5: two views over different external variables with the
same ordered element types have equal tokens. -/
theorem type_token_function_of_type_list_witness :
    sampleView.typeList = otherView.typeList ∧
    sampleView.type_token = otherView.type_token :=
  ⟨by decide,
   (type_token_function_of_type_list sampleView otherView (by decide)).1⟩

/-- The comparison loop starting at position `i` succeeds iff every
remaining position matches its meta element. -/
theorem match_elements_loop_iff (t : type_erased_tuple)
    (ts : List rtti_pair) (i : Nat) :
    match_elements_loop t ts i = true ↔
      ∀ j, j < ts.length →
        match_element (ts.getD j ⟨0, 0⟩) t (i + j) = true := by
  induction ts generalizing i with
  | nil => simp [match_elements_loop]
  | cons x xs ih =>
    simp only [match_elements_loop]
    by_cases hx : match_element x t i = true
    · rw [if_pos hx, ih]
      constructor
      · intro h j hj
        match j with
        | 0 => simpa [List.getD_cons_zero] using hx
        | k + 1 =>
          have hk : k < xs.length := by simpa using hj
          have hkk := h k hk
          have hidx : (i + 1) + k = i + (k + 1) := by omega
          rw [hidx] at hkk
          simpa [List.getD_cons_succ] using hkk
      · intro h j hj
        have hjj := h (j + 1) (by simpa using Nat.succ_lt_succ hj)
        have hidx : i + (j + 1) = (i + 1) + j := by omega
        rw [hidx] at hjj
        simpa [List.getD_cons_succ] using hjj
    · rw [if_neg hx]
      constructor
      · intro hcontra
        exact absurd hcontra (by simp)
      · intro h
        exact absurd
          (by simpa [List.getD_cons_zero] using h 0 (Nat.succ_pos xs.length))
          hx

/-- C3: `match_elements` rejects immediately when the static arity
differs from the arity of the tuple, and then its result does not depend
on the elements at all; the comparison loop short-circuits on the first
mismatch, never consulting later positions; and the result is true
exactly when the arity matches and every position matches in ascending
order. -/
theorem match_elements_arity_and_order (t : type_erased_tuple)
    (ts : List rtti_pair) :
    (ts.length ≠ t.size →
      t.match_elements ts = false ∧
      ∀ ty g sh,
        (type_erased_tuple.mk t.size ty g sh).match_elements ts = false) ∧
    (∀ x xs xs2 i, match_element x t i = false →
      match_elements_loop t (x :: xs) i = false ∧
      match_elements_loop t (x :: xs) i = match_elements_loop t (x :: xs2) i) ∧
    (t.match_elements ts = true ↔
      ts.length = t.size ∧
      ∀ j, j < ts.length → match_element (ts.getD j ⟨0, 0⟩) t j = true) := by
  refine ⟨?_, ?_, ?_⟩
  · intro h
    exact ⟨by simp [type_erased_tuple.match_elements, h],
      fun ty g sh => by simp [type_erased_tuple.match_elements, h]⟩
  · intro x xs xs2 i hx
    constructor <;> simp [match_elements_loop, hx]
  · unfold type_erased_tuple.match_elements
    by_cases h : ts.length = t.size
    · rw [if_neg (by simp [h]), match_elements_loop_iff]
      simp [h]
    · rw [if_pos h]
      simp [h]

/-- Witness for C3: the sample tuple rejects a shorter pattern and
accepts the matching two-element pattern. -/
theorem match_elements_arity_and_order_witness :
    sampleTuple.match_elements [⟨1, 10⟩] = false ∧
    sampleTuple.match_elements samplePattern = true := by
  constructor
  · exact ((match_elements_arity_and_order sampleTuple [⟨1, 10⟩]).1
      (by decide)).1
  · exact (match_elements_arity_and_order sampleTuple samplePattern).2.2.mpr
      (by decide)

/-- C1: when the parameter-type list of a callable matches the shape of
the tuple, `apply` invokes the callable exactly once, with arguments
equal to the tuple elements in positional order, and wraps the outcome:
a value-returning callable yields a present optional holding its return
value, a void callable yields the present-but-empty unit result, which
is distinct from the no-match result `none`.  Side effects of the
callable are made observable by threading an explicit state, and the
exactly-once property is exhibited through an invocation counter. -/
theorem apply_match_invokes_once {σ R : Type} (t : type_erased_tuple)
    (argTypes : List rtti_pair) (f : σ → List Val → σ × R)
    (g : σ → List Val → σ) (s : σ)
    (h : t.match_elements argTypes = true) :
    t.applyVal argTypes f s = ((f s t.args).1, some ((f s t.args).2)) ∧
    t.applyVoid argTypes g s = (g s t.args, some ()) ∧
    (∀ (c : Nat) (f0 : List Val → R),
      t.applyVal argTypes (fun c2 xs => (c2 + 1, f0 xs)) c
        = (c + 1, some (f0 t.args))) ∧
    (some () : Option Unit) ≠ none := by
  refine ⟨?_, ?_, ?_, by simp⟩
  · simp [type_erased_tuple.applyVal, h]
  · simp [type_erased_tuple.applyVoid, h]
  · intro c f0
    simp [type_erased_tuple.applyVal, h]

/-- Witness for C1: applying a counting callable to the matching sample
tuple returns the elements in positional order and bumps the counter
once. -/
theorem apply_match_invokes_once_witness :
    sampleTuple.match_elements samplePattern = true ∧
    sampleTuple.applyVal samplePattern
      (fun (c : Nat) (xs : List Val) => (c + 1, xs)) 0
      = (1, some [Val.vint 42, Val.vstr "hi"]) := by
  refine ⟨by decide, ?_⟩
  rw [(apply_match_invokes_once sampleTuple samplePattern
    (fun (c : Nat) (xs : List Val) => (c + 1, xs))
    (fun c _ => c) 0 (by decide)).1]
  decide

/-- C2: when the parameter-type list of a callable does not match the
shape of the tuple, `apply` returns the no-match result `none` without
invoking the callable and without any side effect: the threaded state
comes back unchanged, and an invocation counter stays where it was. -/
theorem apply_mismatch_returns_none {σ R : Type} (t : type_erased_tuple)
    (argTypes : List rtti_pair) (f : σ → List Val → σ × R)
    (g : σ → List Val → σ) (s : σ)
    (h : t.match_elements argTypes = false) :
    t.applyVal argTypes f s = (s, none) ∧
    t.applyVoid argTypes g s = (s, none) ∧
    (∀ (c : Nat) (f0 : List Val → R),
      t.applyVal argTypes (fun c2 xs => (c2 + 1, f0 xs)) c = (c, none)) := by
  refine ⟨?_, ?_, ?_⟩
  · simp [type_erased_tuple.applyVal, h]
  · simp [type_erased_tuple.applyVoid, h]
  · intro c f0
    simp [type_erased_tuple.applyVal, h]

/-- Witness for C2: applying a counting callable under the swapped
pattern leaves the counter at zero and yields `none`. -/
theorem apply_mismatch_returns_none_witness :
    sampleTuple.match_elements swappedPattern = false ∧
    sampleTuple.applyVal swappedPattern
      (fun (c : Nat) (xs : List Val) => (c + 1, xs)) 0 = (0, none) := by
  exact ⟨by decide,
    (apply_mismatch_returns_none sampleTuple swappedPattern
      (fun (c : Nat) (xs : List Val) => (c + 1, xs))
      (fun c _ => c) 0 (by decide)).1⟩

/-- C6: `copy(pos)` on a view produces an independently-owned value whose
payload and type identity equal `get(pos)` and `type(pos)` at the moment
of copying; mutating the referenced external variable afterwards is
visible through the view but leaves the already-made copy unchanged: the
copy still holds the old value, which then differs from what the view
reads. -/
theorem copy_owns_snapshot (v : type_erased_tuple_view) (st : Store)
    (pos : Nat) (x : Val) (hpos : pos < v.size) :
    (v.copy st pos).payload = v.get st pos ∧
    (v.copy st pos).rtti = v.type pos ∧
    v.get (v.set st pos x) pos = x ∧
    (x ≠ v.get st pos →
      (v.copy st pos).payload ≠ v.get (v.set st pos x) pos) := by
  refine ⟨rfl, rfl, ?_, ?_⟩
  · simp [type_erased_tuple_view.get, type_erased_tuple_view.set, Store.write]
  · intro hne
    simp only [type_erased_tuple_view.copy, type_erased_tuple_view.get,
      type_erased_tuple_view.set, Store.write, if_pos rfl]
    exact fun hEq => hne hEq.symm

/-- Witness for C6: copying the int element of the sample view snapshots
42, and the snapshot differs from what the view reads after the external
variable is overwritten with 7. -/
theorem copy_owns_snapshot_witness :
    0 < sampleView.size ∧
    (sampleView.copy sampleStore 0).payload = Val.vint 42 ∧
    sampleView.get (sampleView.set sampleStore 0 (Val.vint 7)) 0
      = Val.vint 7 := by
  refine ⟨by decide, ?_, ?_⟩
  · rw [(copy_owns_snapshot sampleView sampleStore 0 (Val.vint 7)
      (by decide)).1]
    decide
  · exact (copy_owns_snapshot sampleView sampleStore 0 (Val.vint 7)
      (by decide)).2.2.1

/-- C7: a copy-constructed view references the same external variables as
the original, not duplicates: the reference table is rebuilt identically,
reads through the copy agree with reads through the original for every
store, and a mutation performed through the copy is observable through
the original view and through the external variable itself. -/
theorem copy_ctor_aliases_externals (v : type_erased_tuple_view)
    (st : Store) (pos : Nat) (x : Val) (hpos : pos < v.size) :
    v.copyCtor.refs = v.refs ∧
    v.copyCtor.get st pos = v.get st pos ∧
    v.get (v.copyCtor.set st pos x) pos = x ∧
    (v.copyCtor.set st pos x)
      (v.refs.getD pos type_erased_tuple_view.dummy).2 = x := by
  refine ⟨rfl, rfl, ?_, ?_⟩ <;>
    simp [type_erased_tuple_view.copyCtor, type_erased_tuple_view.get,
      type_erased_tuple_view.set, Store.write]

/-- Witness for C7: writing 7 through the copy of the sample view is seen
by the original view at position 0. -/
theorem copy_ctor_aliases_externals_witness :
    0 < sampleView.size ∧
    sampleView.get (sampleView.copyCtor.set sampleStore 0 (Val.vint 7)) 0
      = Val.vint 7 :=
  ⟨by decide,
   (copy_ctor_aliases_externals sampleView sampleStore 0 (Val.vint 7)
     (by decide)).2.2.1⟩

/-- Appending one written element per position: the fold of the
per-position saves over an ascending index range writes exactly the
per-element values after the incoming sink, in index order. -/
theorem foldl_snoc_range {α : Type} (g : Nat → α) (n : Nat) :
    ∀ sink : List α,
      (List.range n).foldl (fun sk i => sk ++ [g i]) sink
        = sink ++ (List.range n).map g := by
  induction n with
  | zero => intro sink; simp
  | succ n ih =>
    intro sink
    simp [List.range_succ, List.foldl_append, ih]

/-- The ascending load run starting at position `i` consumes exactly the
first `|xs|` values of the source when asked for `|xs|` positions,
leaving the rest of the stream untouched and producing the sequential
per-position store. -/
theorem view_load_from_eq (v : type_erased_tuple_view) :
    ∀ (xs : List Val) (i : Nat) (st : Store) (rest : List Val),
      type_erased_tuple_view.view_load_from v i xs.length (st, xs ++ rest)
        = some (type_erased_tuple_view.loadStore v i st xs, rest) := by
  intro xs
  induction xs with
  | nil =>
    intro i st rest
    simp [type_erased_tuple_view.view_load_from,
      type_erased_tuple_view.loadStore]
  | cons x xs ih =>
    intro i st rest
    show type_erased_tuple_view.view_load_from v i (xs.length + 1)
        (st, x :: (xs ++ rest)) = _
    simp only [type_erased_tuple_view.view_load_from,
      type_erased_tuple_view.view_load_pos, Option.bind_eq_bind,
      Option.some_bind]
    exact ih (i + 1) (v.set st i x) rest

/-- C8: the aggregate `save` is the composition of the per-position saves
for positions `0 .. size()-1` in ascending order, and its output is
exactly the incoming sink followed by the element values in positional
order, with no length prefix or arity marker; likewise the aggregate
`load` is the ascending composition of the per-position loads: on a
source holding the element values followed by arbitrary trailing data it
consumes exactly `size()` values, stores them into the successive
positions, and leaves the trailing data untouched. -/
theorem aggregate_save_load_no_framing (v : type_erased_tuple_view)
    (st : Store) (sink : List Val) (xs rest : List Val)
    (hlen : xs.length = v.size) :
    v.view_save st sink
      = (List.range v.size).foldl (fun sk i => v.view_save_pos st i sk) sink ∧
    v.view_save st sink = sink ++ (List.range v.size).map (v.get st) ∧
    v.view_load (st, xs ++ rest)
      = some (type_erased_tuple_view.loadStore v 0 st xs, rest) := by
  refine ⟨rfl, ?_, ?_⟩
  · exact foldl_snoc_range (v.get st) v.size sink
  · unfold type_erased_tuple_view.view_load
    rw [← hlen]
    exact view_load_from_eq v xs 0 st rest

/-- Witness for C8: saving the sample view writes exactly its two
elements after the sink, and loading two values consumes exactly those
two, leaving the trailing datum in the stream. -/
theorem aggregate_save_load_no_framing_witness :
    ([Val.vint 1, Val.vint 2].length = sampleView.size) ∧
    sampleView.view_save sampleStore []
      = [Val.vint 42, Val.vstr "hi"] ∧
    (sampleView.view_load
        (sampleStore, [Val.vint 1, Val.vint 2] ++ [Val.vbool true])).map
      Prod.snd = some [Val.vbool true] := by
  have h := aggregate_save_load_no_framing sampleView sampleStore []
    [Val.vint 1, Val.vint 2] [Val.vbool true] (by decide)
  refine ⟨by decide, ?_, ?_⟩
  · rw [h.2.1]; decide
  · rw [h.2.2]; decide

end caf

namespace openssl

/-- C10: at the public interface a zero-length request is handled
asymmetrically: `write_some` with `len = 0` returns `true` without
attempting a write, while `read_some` with `len = 0` executes `return 0`,
i.e. returns `false` (the value reserved for the connection-closed
signal), without attempting a read and without assigning `result`. -/
theorem zero_length_asymmetry (ssl : ssl_outcome) :
    write_some ssl 0 = ⟨none, true⟩ ∧
    read_some ssl 0 = ⟨none, false⟩ :=
  ⟨rfl, rfl⟩

/-- C9 counterexample: the claim says a want-read / want-write condition
is signalled by a false result, but `handle_ssl_result` returns `true`
for both, so `read_some` and `write_some` signal "retry later" with a
true result (and zero bytes). -/
theorem try_again_not_signalled_by_false :
    (read_some ⟨-1, ssl_errc.want_read⟩ 1).ok = true ∧
    (write_some ⟨-1, ssl_errc.want_write⟩ 1).ok = true := by
  decide

/-- C9 amended: for a non-empty request whose underlying call does not
make progress, a want-read / want-write condition yields `true` with
`result = 0` (no progress yet, retry later), while a zero-return or
syscall condition yields `false` with `result = 0` (connection closed, a
hard failure); the two signals are distinct boolean results. -/
theorem retry_and_closed_signals (ssl : ssl_outcome) (len : Nat)
    (hlen : len ≠ 0) (hret : ssl.ret ≤ 0) :
    ((ssl.errc = ssl_errc.want_read ∨ ssl.errc = ssl_errc.want_write) →
      read_some ssl len = ⟨some 0, true⟩ ∧
      write_some ssl len = ⟨some 0, true⟩) ∧
    ((ssl.errc = ssl_errc.zero_return ∨ ssl.errc = ssl_errc.syscall) →
      read_some ssl len = ⟨some 0, false⟩ ∧
      write_some ssl len = ⟨some 0, false⟩) := by
  have hr : ¬ ssl.ret > 0 := by omega
  constructor
  · rintro (h | h) <;>
      simp [read_some, write_some, hlen, hr, handle_ssl_result, h]
  · rintro (h | h) <;>
      simp [read_some, write_some, hlen, hr, handle_ssl_result, h]

/-- Witness for the amended C9 at concrete inputs. -/
theorem retry_and_closed_signals_witness :
    (1 : Nat) ≠ 0 ∧ ((-1 : Int) ≤ 0) ∧
    read_some ⟨-1, ssl_errc.zero_return⟩ 1 = ⟨some 0, false⟩ := by
  refine ⟨by decide, by decide, ?_⟩
  exact ((retry_and_closed_signals ⟨-1, ssl_errc.zero_return⟩ 1
    (by decide) (by decide)).2 (Or.inl rfl)).1

end openssl
